import Mathlib

/-!
Shallow embedding of the Oahu Tourist Sustainability Calculator core
(`src/main.py`): the six category scorers, the three absolute impact
estimators, the aggregator `calculate_impact`, and the recommendation
deriver `get_recommendations`.

Python floats are modelled as exact rationals (ℚ).  Python dictionaries
keyed by free-form labels are modelled as association lists over `String`;
a strict dictionary access (`d[k]`, which raises `KeyError` on a missing
key) becomes an `Option`-valued lookup, while a lenient access
(`d.get(k, default)`) becomes `lookup` followed by `getD`.  Python's
builtin `round` (round-half-to-even) is modelled by `pyRound`.
-/

/-- Python's builtin `round` on an exact rational: round to the nearest
integer, ties going to the even integer. -/
def pyRound (q : ℚ) : ℤ :=
  let f := ⌊q⌋
  let r := q - f
  if r < 1 / 2 then f
  else if 1 / 2 < r then f + 1
  else if f % 2 = 0 then f else f + 1

/-- Python's `round(x, 1)`: round to one decimal place. -/
def pyRound1 (q : ℚ) : ℚ :=
  (pyRound (q * 10) : ℚ) / 10

/-! ## Destination factor table (`get_oahu_environmental_factors`) -/

structure TransportFactors where
  traffic_congestion_factor : ℚ
  public_transport_quality : ℚ
  ev_rental_availability : ℚ
  avg_tourist_travel_distance : ℚ

structure AccommodationFactors where
  hotel_energy_intensity : ℚ
  resort_water_intensity : ℚ
  green_certified_percentage : ℚ
  avg_ac_usage : ℚ

structure EnergyFactors where
  electricity_cost : ℚ
  renewable_percentage : ℚ
  fossil_fuel_dependency : ℚ
  tourism_energy_factor : ℚ

structure WaterFactors where
  freshwater_scarcity : ℚ
  rainfall_variation : ℚ
  tourism_water_factor : ℚ
  avg_hotel_consumption : ℚ

structure WasteFactors where
  limited_landfill_space : ℚ
  recycling_infrastructure : ℚ
  marine_debris_impact : ℚ
  tourism_waste_factor : ℚ

structure FoodFactors where
  import_dependency : ℚ
  local_agriculture_capacity : ℚ
  fishing_sustainability : ℚ
  tourist_dining_impact : ℚ

structure ActivityFactors where
  reef_vulnerability : ℚ
  trail_erosion_factor : ℚ
  wildlife_disturbance : ℚ
  marine_activity_impact : ℚ

structure CarbonFactors where
  island_multiplier : ℚ
  tourism_impact : ℚ
  flight_emissions_factor : ℚ
  avg_tourist_emissions : ℚ

structure OahuFactors where
  transport : TransportFactors
  accommodation : AccommodationFactors
  energy : EnergyFactors
  water : WaterFactors
  waste : WasteFactors
  food : FoodFactors
  activities : ActivityFactors
  carbon : CarbonFactors

/-- The fixed Oahu-specific environmental factor table. -/
def get_oahu_environmental_factors : OahuFactors where
  transport :=
    { traffic_congestion_factor := 0.8
      public_transport_quality := 0.6
      ev_rental_availability := 0.4
      avg_tourist_travel_distance := 20 }
  accommodation :=
    { hotel_energy_intensity := 20.5
      resort_water_intensity := 300
      green_certified_percentage := 0.25
      avg_ac_usage := 8 }
  energy :=
    { electricity_cost := 0.34
      renewable_percentage := 0.35
      fossil_fuel_dependency := 0.65
      tourism_energy_factor := 1.5 }
  water :=
    { freshwater_scarcity := 0.7
      rainfall_variation := 0.7
      tourism_water_factor := 2.0
      avg_hotel_consumption := 300 }
  waste :=
    { limited_landfill_space := 0.8
      recycling_infrastructure := 0.5
      marine_debris_impact := 0.9
      tourism_waste_factor := 1.8 }
  food :=
    { import_dependency := 0.85
      local_agriculture_capacity := 0.3
      fishing_sustainability := 0.6
      tourist_dining_impact := 1.6 }
  activities :=
    { reef_vulnerability := 0.8
      trail_erosion_factor := 0.7
      wildlife_disturbance := 0.6
      marine_activity_impact := 0.75 }
  carbon :=
    { island_multiplier := 1.2
      tourism_impact := 1.5
      flight_emissions_factor := 0.2
      avg_tourist_emissions := 3.2 }

/-! ## Trip parameters (the `user_data` dictionary) -/

/-- The `user_data` dictionary compiled by `input_form`.  Transport mode,
accommodation type and activities are kept as free-form strings, exactly as
in the source, so that unknown labels can be expressed. -/
structure UserData where
  duration : ℤ
  flight_distance : ℚ
  local_transport : String
  accommodation_type : String
  ac_usage : ℚ
  water_conservation : ℚ
  linen_reuse : Bool
  reusable_bottle : Bool
  reusable_bag : Bool
  refuse_single_use : ℚ
  cleanup_participation : Bool
  plant_based : ℚ
  local_food : ℚ
  seafood_sustainable : Bool
  food_waste : ℚ
  shower_length : ℚ
  pool_usage : ℚ
  activities : List String
  reef_safe : Bool
  wildlife_distance : Bool
  eco_tours : Bool

/-! ## Category scorers -/

/-- Transport type multipliers (lower is better - less emissions). -/
def transport_multipliers : List (String × ℚ) :=
  [("Rental EV", 0.3),
   ("Rental hybrid", 0.6),
   ("Rental economy car", 1.0),
   ("Rental SUV/large vehicle", 2.0),
   ("Public transportation/shuttle", 0.4),
   ("Mostly walking/biking", 0.1),
   ("Rideshare/taxi", 0.8)]

/-- `calculate_transport_impact`: transport-related impact score (0-100).
The strict dictionary access `transport_multipliers[local_transport]` is
modelled by an `Option`-valued lookup. -/
def calculate_transport_impact (user_data : UserData) (oahu_factors : OahuFactors) :
    Option ℚ :=
  (transport_multipliers.lookup user_data.local_transport).map fun mult =>
    let base_score : ℚ := 100
    let flight_impact := user_data.flight_distance * 0.02
    let base_score := base_score - flight_impact
    let daily_miles := oahu_factors.transport.avg_tourist_travel_distance
    let transport_impact := daily_miles * mult * 0.15
    let base_score := base_score - transport_impact
    let base_score :=
      if user_data.local_transport ∈ ["Public transportation/shuttle", "Mostly walking/biking"] then
        base_score + 10 * oahu_factors.transport.public_transport_quality
      else if user_data.local_transport = "Rental EV" then
        base_score - 5 * (1 - oahu_factors.transport.ev_rental_availability)
      else base_score
    let congestion_impact := 5 * oahu_factors.transport.traffic_congestion_factor
    let base_score := base_score - congestion_impact
    max 0 (min 100 base_score)

/-- Accommodation impact multipliers (lower is better - less impact). -/
def accommodation_multipliers : List (String × ℚ) :=
  [("Eco-certified hotel/resort", 0.5),
   ("Standard hotel/resort", 1.0),
   ("Luxury resort", 1.5),
   ("Vacation rental", 0.8),
   ("Hostel/budget accommodation", 0.6),
   ("Camping/outdoor lodging", 0.3)]

/-- `calculate_accommodation_impact`: accommodation impact score (0-100). -/
def calculate_accommodation_impact (user_data : UserData) (oahu_factors : OahuFactors) :
    Option ℚ :=
  (accommodation_multipliers.lookup user_data.accommodation_type).map fun mult =>
    let base_score : ℚ := 100
    let accommodation_impact := 30 * mult
    let base_score := base_score - accommodation_impact
    let ac_impact := user_data.ac_usage * 2
    let base_score := base_score - ac_impact
    let water_practices_impact := 15 * (1 - user_data.water_conservation)
    let base_score := base_score - water_practices_impact
    let base_score := if user_data.linen_reuse then base_score + 10 else base_score
    let energy_factor := oahu_factors.energy.tourism_energy_factor
    let base_score := base_score - 5 * (energy_factor - 1)
    let green_cert_adjustment := 5 * oahu_factors.accommodation.green_certified_percentage
    let base_score := base_score + green_cert_adjustment
    max 0 (min 100 base_score)

/-- Activity impact table of `calculate_activities_impact` (lower is
better - less impact). -/
def activity_impacts (oahu_factors : OahuFactors) : List (String × ℚ) :=
  [("Snorkeling/scuba on coral reefs", 15 * oahu_factors.activities.reef_vulnerability),
   ("Motorized water sports (jet ski, motorboats)", 25),
   ("Hiking on maintained trails", 5 * oahu_factors.activities.trail_erosion_factor),
   ("Off-trail hiking/exploration", 20 * oahu_factors.activities.trail_erosion_factor),
   ("Wildlife viewing tours", 10 * oahu_factors.activities.wildlife_disturbance),
   ("ATV/off-road vehicle tours", 30),
   ("Shopping/dining", 10),
   ("Cultural sites/museums", 5),
   ("Beach relaxation", 5),
   ("Surfing/paddleboarding", 5 * oahu_factors.activities.marine_activity_impact)]

/-- `calculate_activities_impact`: activities impact score (0-100).  The
lenient access `activity_impacts.get(activity, 10)` is modelled by
`lookup` followed by `getD 10`; the scorer is total. -/
def calculate_activities_impact (user_data : UserData) (oahu_factors : OahuFactors) : ℚ :=
  let base_score : ℚ := 100
  let total_activity_impact :=
    user_data.activities.foldl
      (fun acc activity => acc + ((activity_impacts oahu_factors).lookup activity).getD 10) 0
  let base_score :=
    if user_data.activities.isEmpty then base_score
    else
      let avg_activity_impact := total_activity_impact / (user_data.activities.length : ℚ)
      base_score - avg_activity_impact
  let base_score := if user_data.eco_tours then base_score + 15 else base_score
  let base_score :=
    if user_data.wildlife_distance then base_score + 10
    else base_score - 10 * oahu_factors.activities.wildlife_disturbance
  let base_score :=
    if user_data.reef_safe then base_score + 15
    else base_score - 15 * oahu_factors.activities.reef_vulnerability
  max 0 (min 100 base_score)

/-- `calculate_water_impact`: water impact score (0-100); total. -/
def calculate_water_impact (user_data : UserData) (oahu_factors : OahuFactors) : ℚ :=
  let base_score : ℚ := 100
  let shower_impact := user_data.shower_length * 2.5
  let base_score := base_score - shower_impact
  let conservation_impact := 20 * (1 - user_data.water_conservation)
  let base_score := base_score - conservation_impact
  let base_score :=
    if user_data.linen_reuse then base_score + 15 else base_score - 10
  let pool_impact := user_data.pool_usage * 3
  let base_score := base_score - pool_impact
  let scarcity_impact := 10 * oahu_factors.water.freshwater_scarcity
  let base_score := base_score - scarcity_impact
  let tourism_water_factor := oahu_factors.water.tourism_water_factor
  let base_score := base_score - 5 * (tourism_water_factor - 1)
  max 0 (min 100 base_score)

/-- `calculate_waste_impact`: waste impact score (0-100); total. -/
def calculate_waste_impact (user_data : UserData) (oahu_factors : OahuFactors) : ℚ :=
  let base_score : ℚ := 100
  let base_score :=
    if user_data.reusable_bottle then base_score + 15 else base_score - 15
  let base_score :=
    if user_data.reusable_bag then base_score + 10 else base_score - 10
  let single_use_impact := 20 * (1 - user_data.refuse_single_use)
  let base_score := base_score - single_use_impact
  let base_score :=
    if user_data.cleanup_participation then base_score + 20 else base_score
  let landfill_impact := 10 * oahu_factors.waste.limited_landfill_space
  let base_score := base_score - landfill_impact
  let marine_impact := 10 * oahu_factors.waste.marine_debris_impact
  let base_score := base_score - marine_impact
  let tourism_waste_factor := oahu_factors.waste.tourism_waste_factor
  let base_score := base_score - 5 * (tourism_waste_factor - 1)
  max 0 (min 100 base_score)

/-- `calculate_food_impact`: food impact score (0-100); total. -/
def calculate_food_impact (user_data : UserData) (oahu_factors : OahuFactors) : ℚ :=
  let base_score : ℚ := 100
  let local_food_impact := 25 * (1 - user_data.local_food)
  let base_score := base_score - local_food_impact
  let plant_based_impact := 20 * (1 - user_data.plant_based)
  let base_score := base_score - plant_based_impact
  let base_score :=
    if user_data.seafood_sustainable then base_score + 15 else base_score - 15
  let food_waste_impact := 15 * (1 - user_data.food_waste)
  let base_score := base_score - food_waste_impact
  let import_impact := 10 * oahu_factors.food.import_dependency
  let base_score := base_score - import_impact
  let ag_impact := 10 * (1 - oahu_factors.food.local_agriculture_capacity)
  let base_score := base_score - ag_impact
  let tourism_food_factor := oahu_factors.food.tourist_dining_impact
  let base_score := base_score - 5 * (tourism_food_factor - 1)
  max 0 (min 100 base_score)

/-! ## Absolute impact estimators -/

/-- Transport type carbon factors (tons CO2 per mile). -/
def transport_carbon : List (String × ℚ) :=
  [("Rental EV", 0.0001),
   ("Rental hybrid", 0.0002),
   ("Rental economy car", 0.0004),
   ("Rental SUV/large vehicle", 0.0007),
   ("Public transportation/shuttle", 0.0001),
   ("Mostly walking/biking", 0.00001),
   ("Rideshare/taxi", 0.0003)]

/-- Accommodation carbon factors (tons CO2 per night). -/
def accommodation_carbon : List (String × ℚ) :=
  [("Eco-certified hotel/resort", 0.01),
   ("Standard hotel/resort", 0.03),
   ("Luxury resort", 0.06),
   ("Vacation rental", 0.02),
   ("Hostel/budget accommodation", 0.01),
   ("Camping/outdoor lodging", 0.005)]

/-- Activity carbon factors (tons CO2 per activity). -/
def activity_carbon : List (String × ℚ) :=
  [("Snorkeling/scuba on coral reefs", 0.005),
   ("Motorized water sports (jet ski, motorboats)", 0.03),
   ("Hiking on maintained trails", 0.001),
   ("Off-trail hiking/exploration", 0.001),
   ("Wildlife viewing tours", 0.01),
   ("ATV/off-road vehicle tours", 0.04),
   ("Shopping/dining", 0.005),
   ("Cultural sites/museums", 0.002),
   ("Beach relaxation", 0.001),
   ("Surfing/paddleboarding", 0.001)]

/-- `calculate_carbon_footprint`: carbon footprint (tons of CO2) for the
trip.  Strict accesses into `transport_carbon` and `accommodation_carbon`
are `Option`-valued; the access into `activity_carbon` is lenient with
default 0.01. -/
def calculate_carbon_footprint (user_data : UserData) (oahu_factors : OahuFactors) :
    Option ℚ := do
  let flight_emissions :=
    user_data.flight_distance * oahu_factors.carbon.flight_emissions_factor / 1000
  let days : ℚ := (user_data.duration : ℚ)
  let daily_miles := oahu_factors.transport.avg_tourist_travel_distance
  let mode_carbon ← transport_carbon.lookup user_data.local_transport
  let local_emissions := daily_miles * mode_carbon * days
  let night_carbon ← accommodation_carbon.lookup user_data.accommodation_type
  let accommodation_emissions := night_carbon * days
  let food_emissions_base : ℚ := 0.01
  let food_adjustment : ℚ :=
    if user_data.plant_based < 0.3 then 2.0
    else if user_data.plant_based < 0.7 then 1.5
    else 0.8
  let food_adjustment := food_adjustment * (1.5 - user_data.local_food * 0.5)
  let food_emissions := food_emissions_base * food_adjustment * days
  let activities_emissions :=
    (user_data.activities.foldl
      (fun acc activity => acc + (activity_carbon.lookup activity).getD 0.01) 0) * (days / 3)
  let total_emissions :=
    flight_emissions + local_emissions + accommodation_emissions +
      food_emissions + activities_emissions
  pure (total_emissions * oahu_factors.carbon.island_multiplier)

/-- Accommodation water factors (gallons per person per day). -/
def accommodation_water : List (String × ℚ) :=
  [("Eco-certified hotel/resort", 80),
   ("Standard hotel/resort", 150),
   ("Luxury resort", 250),
   ("Vacation rental", 100),
   ("Hostel/budget accommodation", 70),
   ("Camping/outdoor lodging", 30)]

/-- `calculate_water_usage`: water usage in gallons per day, rounded to the
nearest integer by Python's `round`. -/
def calculate_water_usage (user_data : UserData) (oahu_factors : OahuFactors) :
    Option ℤ :=
  (accommodation_water.lookup user_data.accommodation_type).map fun base_water =>
    let shower_water := user_data.shower_length * 2.5 * 10
    let pool_water := user_data.pool_usage * 15
    let conservation_factor := 1 - user_data.water_conservation * 0.3
    let linen_factor : ℚ := if user_data.linen_reuse then 0.9 else 1.0
    let total_water := (base_water + shower_water + pool_water) * conservation_factor * linen_factor
    let total_water := total_water * oahu_factors.water.tourism_water_factor
    pyRound total_water

/-- `calculate_waste_generation`: waste generation in pounds per day,
rounded to one decimal place; total. -/
def calculate_waste_generation (user_data : UserData) (oahu_factors : OahuFactors) : ℚ :=
  let base_waste : ℚ := 4.0
  let bottle_factor : ℚ := if user_data.reusable_bottle then 0.8 else 1.2
  let bag_factor : ℚ := if user_data.reusable_bag then 0.9 else 1.1
  let single_use_factor := 1 - user_data.refuse_single_use * 0.4
  let cleanup_factor : ℚ := if user_data.cleanup_participation then 0.9 else 1.0
  let food_waste_factor := 1 - user_data.food_waste * 0.3
  let total_waste :=
    base_waste * bottle_factor * bag_factor * single_use_factor * cleanup_factor * food_waste_factor
  let total_waste := total_waste * oahu_factors.waste.tourism_waste_factor
  pyRound1 total_waste

/-! ## Aggregator (`calculate_impact`) -/

/-- The `impact_breakdown` dictionary of the results record. -/
structure ImpactBreakdown where
  transport : ℚ
  accommodation : ℚ
  activities : ℚ
  water : ℚ
  waste : ℚ
  food : ℚ
deriving DecidableEq

/-- The results dictionary returned by `calculate_impact`. -/
structure ImpactResult where
  overall_score : ℤ
  transport_score : ℚ
  accommodation_score : ℚ
  activities_score : ℚ
  water_score : ℚ
  waste_score : ℚ
  food_score : ℚ
  carbon_footprint : ℚ
  water_usage : ℤ
  waste_generation : ℚ
  impact_breakdown : ImpactBreakdown
deriving DecidableEq

/-- `calculate_impact`: runs the six scorers and three estimators over the
fixed Oahu factor table, aggregates the overall score with the fixed
weights, and packages the results.  A `KeyError` escaping from any of the
strict lookups is modelled as `none`. -/
def calculate_impact (user_data : UserData) : Option ImpactResult := do
  let oahu_factors := get_oahu_environmental_factors
  let transport_score ← calculate_transport_impact user_data oahu_factors
  let accommodation_score ← calculate_accommodation_impact user_data oahu_factors
  let activities_score := calculate_activities_impact user_data oahu_factors
  let water_score := calculate_water_impact user_data oahu_factors
  let waste_score := calculate_waste_impact user_data oahu_factors
  let food_score := calculate_food_impact user_data oahu_factors
  let carbon_footprint ← calculate_carbon_footprint user_data oahu_factors
  let water_usage ← calculate_water_usage user_data oahu_factors
  let waste_generation := calculate_waste_generation user_data oahu_factors
  let overall_score :=
    pyRound
      (transport_score * 0.2 +
       accommodation_score * 0.2 +
       activities_score * 0.15 +
       water_score * 0.15 +
       waste_score * 0.15 +
       food_score * 0.15)
  pure
    { overall_score := overall_score
      transport_score := transport_score
      accommodation_score := accommodation_score
      activities_score := activities_score
      water_score := water_score
      waste_score := waste_score
      food_score := food_score
      carbon_footprint := carbon_footprint
      water_usage := water_usage
      waste_generation := waste_generation
      impact_breakdown :=
        { transport := if overall_score > 0 then 0.2 * transport_score / (overall_score : ℚ) else 0
          accommodation := if overall_score > 0 then 0.2 * accommodation_score / (overall_score : ℚ) else 0
          activities := if overall_score > 0 then 0.15 * activities_score / (overall_score : ℚ) else 0
          water := if overall_score > 0 then 0.15 * water_score / (overall_score : ℚ) else 0
          waste := if overall_score > 0 then 0.15 * waste_score / (overall_score : ℚ) else 0
          food := if overall_score > 0 then 0.15 * food_score / (overall_score : ℚ) else 0 } }

/-! ## Recommendation deriver (`get_recommendations`) -/

/-- One advisory record appended by `get_recommendations`. -/
structure Recommendation where
  category : String
  title : String
  description : String
deriving DecidableEq

/-- First fixed general fallback advisory. -/
def general_recommendation_1 : Recommendation where
  category := "general"
  title := "Support Hawaiian conservation efforts"
  description := "Consider donating to local conservation organizations or volunteering during your stay."

/-- Second fixed general fallback advisory. -/
def general_recommendation_2 : Recommendation where
  category := "general"
  title := "Learn about Hawaiian culture"
  description := "Understanding Hawaiian culture and values can inspire more sustainable choices."

/-- The thirteen condition-guarded advisories of `get_recommendations`, in
evaluation (and therefore appending) order. -/
def recommendation_rules (user_data : UserData) : List Recommendation :=
  (if user_data.local_transport ∈ ["Rental SUV/large vehicle", "Rental economy car"] then
    [{ category := "transportation",
       title := "Consider sustainable transportation",
       description := "Opt for the public bus system or the Waikiki Trolley for getting around tourist areas." }]
   else []) ++
  (if user_data.flight_distance > 3000 then
    [{ category := "transportation",
       title := "Offset your flight emissions",
       description := "Consider purchasing carbon offsets for your long-distance flight to Hawaii." }]
   else []) ++
  (if user_data.accommodation_type ∈ ["Standard hotel/resort", "Luxury resort"] ∧ user_data.ac_usage > 6 then
    [{ category := "accommodation",
       title := "Reduce AC usage",
       description := "Natural trade winds provide excellent ventilation; use fans and open windows instead of constant AC." }]
   else []) ++
  (if ¬user_data.linen_reuse then
    [{ category := "accommodation",
       title := "Reuse hotel towels and linens",
       description := "Let your hotel know you do not need daily linen changes to save water and energy." }]
   else []) ++
  (if user_data.shower_length > 5 then
    [{ category := "water",
       title := "Take shorter showers",
       description := "Fresh water is a limited resource on Oahu; limit showers to 5 minutes or less." }]
   else []) ++
  (if user_data.pool_usage > 3 then
    [{ category := "water",
       title := "Balance pool and ocean time",
       description := "Consider spending more time in the ocean instead of resort pools." }]
   else []) ++
  (if ¬user_data.reusable_bottle then
    [{ category := "waste",
       title := "Bring a reusable water bottle",
       description := "Carry a reusable water bottle; Hawaii tap water is clean and safe to drink." }]
   else []) ++
  (if ¬user_data.cleanup_participation then
    [{ category := "waste",
       title := "Join a beach cleanup",
       description := "Consider participating in a beach cleanup with a local organization." }]
   else []) ++
  (if user_data.local_food < 0.5 then
    [{ category := "food",
       title := "Eat more local food",
       description := "Support local farmers and reduce carbon emissions by choosing locally sourced food." }]
   else []) ++
  (if ¬user_data.seafood_sustainable then
    [{ category := "food",
       title := "Choose sustainable seafood",
       description := "When ordering seafood, ask about sustainable options or check the Seafood Watch app." }]
   else []) ++
  (if "Motorized water sports (jet ski, motorboats)" ∈ user_data.activities ∨
      "ATV/off-road vehicle tours" ∈ user_data.activities then
    [{ category := "activities",
       title := "Choose low-impact activities",
       description := "Consider eco-friendly alternatives like kayaking, paddleboarding, or electric boat tours." }]
   else []) ++
  (if "Snorkeling/scuba on coral reefs" ∈ user_data.activities ∧ ¬user_data.reef_safe then
    [{ category := "activities",
       title := "Use reef-safe sunscreen",
       description := "Hawaii has banned sunscreens containing oxybenzone and octinoxate; use mineral-based sunscreens." }]
   else []) ++
  (if "Wildlife viewing tours" ∈ user_data.activities ∧ ¬user_data.wildlife_distance then
    [{ category := "activities",
       title := "Maintain distance from wildlife",
       description := "Keep at least 50 feet from sea turtles, monk seals, and other protected species." }]
   else [])

/-- `get_recommendations`: evaluate the thirteen rules in order, then, if
fewer than 3 advisories were produced, append the two fixed general
fallback advisories.  The `results` argument is accepted but unused,
exactly as in the source. -/
def get_recommendations (user_data : UserData) (results : ImpactResult) : List Recommendation :=
  let recommendations := recommendation_rules user_data
  if recommendations.length < 3 then
    recommendations ++ [general_recommendation_1, general_recommendation_2]
  else
    recommendations

/-! ## Concrete sample inputs and outputs -/

/-- A concrete, fully sustainable trip profile (all enum labels valid). -/
def sampleUser : UserData where
  duration := 7
  flight_distance := 0
  local_transport := "Mostly walking/biking"
  accommodation_type := "Camping/outdoor lodging"
  ac_usage := 0
  water_conservation := 1
  linen_reuse := true
  reusable_bottle := true
  reusable_bag := true
  refuse_single_use := 1
  cleanup_participation := true
  plant_based := 1
  local_food := 1
  seafood_sustainable := true
  food_waste := 1
  shower_length := 0
  pool_usage := 0
  activities := []
  reef_safe := true
  wildlife_distance := true
  eco_tours := true

/-- The result record `calculate_impact` produces for `sampleUser`. -/
def sampleResult : ImpactResult where
  overall_score := 99
  transport_score := 100
  accommodation_score := 399 / 4
  activities_score := 100
  water_score := 100
  waste_score := 100
  food_score := 193 / 2
  carbon_footprint := 693 / 6250
  water_usage := 38
  waste_generation := 2
  impact_breakdown :=
    { transport := 20 / 99
      accommodation := 133 / 660
      activities := 5 / 33
      water := 5 / 33
      waste := 5 / 33
      food := 193 / 1320 }

/-- `sampleUser` with a fraction field out of [0,1] and a duration below 1:
an input the specification declares invalid, but whose enum labels are all
known. -/
def invalidRangeUser : UserData :=
  { sampleUser with water_conservation := 2, duration := 0 }

/-! ## Association-list lookup lemmas -/

theorem lookup_isSome_iff_mem (l : List (String × ℚ)) (a : String) :
    (l.lookup a).isSome ↔ a ∈ l.map Prod.fst := by
  induction l with
  | nil => simp [List.lookup]
  | cons p l ih =>
    by_cases h : a = p.1
    · rw [List.lookup, show (a == p.1) = true by simpa using h]
      simp [h]
    · rw [List.lookup, show (a == p.1) = false by simpa using h]
      simp [ih, h]

theorem lookup_eq_none_of_not_mem {l : List (String × ℚ)} {a : String}
    (h : a ∉ l.map Prod.fst) : l.lookup a = none := by
  rcases hl : l.lookup a with _ | v
  · rfl
  · exact absurd ((lookup_isSome_iff_mem l a).mp (by simp [hl])) h

theorem lookup_mem_values {l : List (String × ℚ)} {a : String} {v : ℚ}
    (h : l.lookup a = some v) : v ∈ l.map Prod.snd := by
  induction l with
  | nil => simp [List.lookup] at h
  | cons p l ih =>
    rw [List.lookup] at h
    cases hb : (a == p.1) with
    | false =>
      rw [hb] at h
      simpa using Or.inr (ih h)
    | true =>
      rw [hb] at h
      simp only [Option.some.injEq] at h
      simp [← h]

/-! ## Rounding lemmas -/

theorem pyRound_nonneg {q : ℚ} (h : 0 ≤ q) : 0 ≤ pyRound q := by
  have hf : (0 : ℤ) ≤ ⌊q⌋ := Int.floor_nonneg.mpr h
  unfold pyRound
  dsimp only
  split_ifs <;> omega

theorem pyRound_le_of_le {q : ℚ} {n : ℤ} (h : q ≤ (n : ℚ)) : pyRound q ≤ n := by
  have hf : ⌊q⌋ ≤ n := by
    have := Int.floor_le_floor h
    simpa using this
  have hfl : (⌊q⌋ : ℚ) ≤ q := Int.floor_le q
  unfold pyRound
  dsimp only
  split_ifs with h1 h2 h3
  · exact hf
  · have hlt : (⌊q⌋ : ℚ) < (n : ℚ) := by push_neg at h1; linarith
    have : ⌊q⌋ < n := by exact_mod_cast hlt
    omega
  · exact hf
  · have hlt : (⌊q⌋ : ℚ) < (n : ℚ) := by push_neg at h1; linarith
    have : ⌊q⌋ < n := by exact_mod_cast hlt
    omega

theorem abs_sub_pyRound_le (q : ℚ) : |q - (pyRound q : ℚ)| ≤ 1 / 2 := by
  have h0 : (⌊q⌋ : ℚ) ≤ q := Int.floor_le q
  have h1 : q < ⌊q⌋ + 1 := Int.lt_floor_add_one q
  unfold pyRound
  dsimp only
  split_ifs with ha hb hc <;> rw [abs_le] <;> constructor <;> push_cast <;> linarith

theorem pyRound_zero : pyRound 0 = 0 := by norm_num [pyRound]

theorem pyRound1_nonneg {q : ℚ} (h : 0 ≤ q) : 0 ≤ pyRound1 q := by
  unfold pyRound1
  have : (0 : ℤ) ≤ pyRound (q * 10) := pyRound_nonneg (by linarith)
  positivity

/-! ## Clamping lemmas -/

theorem clamp_nonneg (x : ℚ) : 0 ≤ max 0 (min 100 x) := le_max_left 0 _

theorem clamp_le_100 (x : ℚ) : max 0 (min 100 x) ≤ 100 :=
  max_le (by norm_num) (min_le_left _ _)

theorem clamp_mono {x y : ℚ} (h : x ≤ y) :
    max 0 (min 100 x) ≤ max 0 (min 100 y) :=
  max_le_max le_rfl (min_le_min le_rfl h)

theorem clamp_lt_clamp {x y : ℚ} (hxy : x < y) (hy : 0 < max 0 (min 100 y))
    (hx : max 0 (min 100 x) < 100) : max 0 (min 100 x) < max 0 (min 100 y) := by
  have hymin : 0 < min 100 y := by
    rcases lt_max_iff.mp hy with h | h
    · exact absurd h (lt_irrefl 0)
    · exact h
  have hy0 : 0 < y := lt_of_lt_of_le hymin (min_le_right _ _)
  have hx100 : x < 100 := by
    by_contra hcon
    push_neg at hcon
    rw [min_eq_left hcon] at hx
    simp at hx
  rw [min_eq_right hx100.le]
  rcases le_total y 100 with hy100 | hy100
  · rw [min_eq_right hy100, max_eq_right hy0.le]
    exact max_lt hy0 hxy
  · rw [min_eq_left hy100, max_eq_right (by norm_num : (0 : ℚ) ≤ 100)]
    exact max_lt (by norm_num) hx100

/-! ## Scorer output bounds -/

theorem calculate_transport_impact_bounds {ud : UserData} {f : OahuFactors} {t : ℚ}
    (h : calculate_transport_impact ud f = some t) : 0 ≤ t ∧ t ≤ 100 := by
  unfold calculate_transport_impact at h
  rcases Option.map_eq_some'.mp h with ⟨m, _, ht⟩
  rw [← ht]
  exact ⟨clamp_nonneg _, clamp_le_100 _⟩

theorem calculate_accommodation_impact_bounds {ud : UserData} {f : OahuFactors} {a : ℚ}
    (h : calculate_accommodation_impact ud f = some a) : 0 ≤ a ∧ a ≤ 100 := by
  unfold calculate_accommodation_impact at h
  rcases Option.map_eq_some'.mp h with ⟨m, _, ha⟩
  rw [← ha]
  exact ⟨clamp_nonneg _, clamp_le_100 _⟩

theorem calculate_activities_impact_bounds (ud : UserData) (f : OahuFactors) :
    0 ≤ calculate_activities_impact ud f ∧ calculate_activities_impact ud f ≤ 100 := by
  unfold calculate_activities_impact
  exact ⟨clamp_nonneg _, clamp_le_100 _⟩

theorem calculate_water_impact_bounds (ud : UserData) (f : OahuFactors) :
    0 ≤ calculate_water_impact ud f ∧ calculate_water_impact ud f ≤ 100 := by
  unfold calculate_water_impact
  exact ⟨clamp_nonneg _, clamp_le_100 _⟩

theorem calculate_waste_impact_bounds (ud : UserData) (f : OahuFactors) :
    0 ≤ calculate_waste_impact ud f ∧ calculate_waste_impact ud f ≤ 100 := by
  unfold calculate_waste_impact
  exact ⟨clamp_nonneg _, clamp_le_100 _⟩

theorem calculate_food_impact_bounds (ud : UserData) (f : OahuFactors) :
    0 ≤ calculate_food_impact ud f ∧ calculate_food_impact ud f ≤ 100 := by
  unfold calculate_food_impact
  exact ⟨clamp_nonneg _, clamp_le_100 _⟩

/-! ## Structure of the aggregator -/

theorem calculate_carbon_footprint_isSome_iff (ud : UserData) (f : OahuFactors) :
    (calculate_carbon_footprint ud f).isSome ↔
      (transport_carbon.lookup ud.local_transport).isSome ∧
      (accommodation_carbon.lookup ud.accommodation_type).isSome := by
  unfold calculate_carbon_footprint
  cases transport_carbon.lookup ud.local_transport with
  | none => simp
  | some tc =>
    cases accommodation_carbon.lookup ud.accommodation_type with
    | none => simp
    | some ac => simp

theorem calculate_impact_isSome_iff (ud : UserData) :
    (calculate_impact ud).isSome ↔
      (calculate_transport_impact ud get_oahu_environmental_factors).isSome ∧
      (calculate_accommodation_impact ud get_oahu_environmental_factors).isSome ∧
      (calculate_carbon_footprint ud get_oahu_environmental_factors).isSome ∧
      (calculate_water_usage ud get_oahu_environmental_factors).isSome := by
  unfold calculate_impact
  dsimp only
  cases calculate_transport_impact ud get_oahu_environmental_factors with
  | none => simp
  | some t =>
    cases calculate_accommodation_impact ud get_oahu_environmental_factors with
    | none => simp
    | some a =>
      cases calculate_carbon_footprint ud get_oahu_environmental_factors with
      | none => simp
      | some c =>
        cases calculate_water_usage ud get_oahu_environmental_factors with
        | none => simp
        | some w => simp

/-- Inversion principle for `calculate_impact`: every field of a returned
result record in terms of the scorers and estimators. -/
theorem calculate_impact_spec {ud : UserData} {r : ImpactResult}
    (h : calculate_impact ud = some r) :
    calculate_transport_impact ud get_oahu_environmental_factors = some r.transport_score ∧
    calculate_accommodation_impact ud get_oahu_environmental_factors = some r.accommodation_score ∧
    r.activities_score = calculate_activities_impact ud get_oahu_environmental_factors ∧
    r.water_score = calculate_water_impact ud get_oahu_environmental_factors ∧
    r.waste_score = calculate_waste_impact ud get_oahu_environmental_factors ∧
    r.food_score = calculate_food_impact ud get_oahu_environmental_factors ∧
    calculate_carbon_footprint ud get_oahu_environmental_factors = some r.carbon_footprint ∧
    calculate_water_usage ud get_oahu_environmental_factors = some r.water_usage ∧
    r.waste_generation = calculate_waste_generation ud get_oahu_environmental_factors ∧
    r.overall_score =
      pyRound
        (r.transport_score * 0.2 + r.accommodation_score * 0.2 +
         r.activities_score * 0.15 + r.water_score * 0.15 +
         r.waste_score * 0.15 + r.food_score * 0.15) ∧
    r.impact_breakdown =
      { transport := if r.overall_score > 0 then 0.2 * r.transport_score / (r.overall_score : ℚ) else 0
        accommodation := if r.overall_score > 0 then 0.2 * r.accommodation_score / (r.overall_score : ℚ) else 0
        activities := if r.overall_score > 0 then 0.15 * r.activities_score / (r.overall_score : ℚ) else 0
        water := if r.overall_score > 0 then 0.15 * r.water_score / (r.overall_score : ℚ) else 0
        waste := if r.overall_score > 0 then 0.15 * r.waste_score / (r.overall_score : ℚ) else 0
        food := if r.overall_score > 0 then 0.15 * r.food_score / (r.overall_score : ℚ) else 0 } := by
  unfold calculate_impact at h
  dsimp only at h
  cases ht : calculate_transport_impact ud get_oahu_environmental_factors with
  | none => rw [ht] at h; simp at h
  | some t =>
    rw [ht] at h
    cases ha : calculate_accommodation_impact ud get_oahu_environmental_factors with
    | none => rw [ha] at h; simp at h
    | some a =>
      rw [ha] at h
      cases hc : calculate_carbon_footprint ud get_oahu_environmental_factors with
      | none => rw [hc] at h; simp at h
      | some c =>
        rw [hc] at h
        cases hw : calculate_water_usage ud get_oahu_environmental_factors with
        | none => rw [hw] at h; simp at h
        | some w =>
          rw [hw] at h
          simp only [Option.bind_eq_bind, Option.some_bind, Option.pure_def, Option.some.injEq] at h
          subst h
          simp

/-! ## Evaluation of the sample profile -/

theorem sampleUser_transport :
    calculate_transport_impact sampleUser get_oahu_environmental_factors = some 100 := by
  unfold calculate_transport_impact
  simp [sampleUser, transport_multipliers, List.lookup, get_oahu_environmental_factors]
  norm_num

theorem sampleUser_accommodation :
    calculate_accommodation_impact sampleUser get_oahu_environmental_factors = some (399 / 4) := by
  unfold calculate_accommodation_impact
  simp [sampleUser, accommodation_multipliers, List.lookup, get_oahu_environmental_factors]
  norm_num

theorem sampleUser_activities :
    calculate_activities_impact sampleUser get_oahu_environmental_factors = 100 := by
  unfold calculate_activities_impact
  simp [sampleUser, get_oahu_environmental_factors]
  norm_num

theorem sampleUser_water :
    calculate_water_impact sampleUser get_oahu_environmental_factors = 100 := by
  unfold calculate_water_impact
  simp [sampleUser, get_oahu_environmental_factors]
  norm_num

theorem sampleUser_waste :
    calculate_waste_impact sampleUser get_oahu_environmental_factors = 100 := by
  unfold calculate_waste_impact
  simp [sampleUser, get_oahu_environmental_factors]
  norm_num

theorem sampleUser_food :
    calculate_food_impact sampleUser get_oahu_environmental_factors = 193 / 2 := by
  unfold calculate_food_impact
  simp [sampleUser, get_oahu_environmental_factors]
  norm_num

theorem sampleUser_carbon :
    calculate_carbon_footprint sampleUser get_oahu_environmental_factors = some (693 / 6250) := by
  unfold calculate_carbon_footprint
  simp [sampleUser, transport_carbon, accommodation_carbon, List.lookup, get_oahu_environmental_factors]
  norm_num

theorem sampleUser_water_usage :
    calculate_water_usage sampleUser get_oahu_environmental_factors = some 38 := by
  unfold calculate_water_usage
  simp [sampleUser, accommodation_water, List.lookup, get_oahu_environmental_factors]
  norm_num [pyRound]

theorem sampleUser_waste_generation :
    calculate_waste_generation sampleUser get_oahu_environmental_factors = 2 := by
  unfold calculate_waste_generation
  simp [sampleUser, get_oahu_environmental_factors]
  norm_num [pyRound1, pyRound]

theorem sampleUser_impact : calculate_impact sampleUser = some sampleResult := by
  unfold calculate_impact
  dsimp only
  rw [sampleUser_transport, sampleUser_accommodation, sampleUser_activities,
    sampleUser_water, sampleUser_waste, sampleUser_food, sampleUser_carbon,
    sampleUser_water_usage, sampleUser_waste_generation]
  simp only [Option.bind_eq_bind, Option.some_bind, Option.pure_def]
  norm_num [sampleResult, pyRound]

/-! ## Claims -/

/-- Claim C1: for every valid trip parameter record (one on which
`calculate_impact` returns a result), each of the six category scores in
the returned record - which are exactly the values returned by the six
category scorers - lies in [0,100], and the overall score computed by the
aggregator is an integer in [0,100]. -/
theorem claim_C1_clamping_invariant (ud : UserData) (r : ImpactResult)
    (h : calculate_impact ud = some r) :
    (0 ≤ r.transport_score ∧ r.transport_score ≤ 100) ∧
    (0 ≤ r.accommodation_score ∧ r.accommodation_score ≤ 100) ∧
    (0 ≤ r.activities_score ∧ r.activities_score ≤ 100) ∧
    (0 ≤ r.water_score ∧ r.water_score ≤ 100) ∧
    (0 ≤ r.waste_score ∧ r.waste_score ≤ 100) ∧
    (0 ≤ r.food_score ∧ r.food_score ≤ 100) ∧
    (0 ≤ r.overall_score ∧ r.overall_score ≤ 100) := by
  obtain ⟨ht, ha, hact, hwat, hwst, hfd, -, -, -, hov, -⟩ := calculate_impact_spec h
  have bt := calculate_transport_impact_bounds ht
  have ba := calculate_accommodation_impact_bounds ha
  have bact := calculate_activities_impact_bounds ud get_oahu_environmental_factors
  have bwat := calculate_water_impact_bounds ud get_oahu_environmental_factors
  have bwst := calculate_waste_impact_bounds ud get_oahu_environmental_factors
  have bfd := calculate_food_impact_bounds ud get_oahu_environmental_factors
  rw [← hact] at bact
  rw [← hwat] at bwat
  rw [← hwst] at bwst
  rw [← hfd] at bfd
  refine ⟨bt, ba, bact, bwat, bwst, bfd, ?_, ?_⟩
  · rw [hov]
    exact pyRound_nonneg (by linarith [bt.1, ba.1, bact.1, bwat.1, bwst.1, bfd.1])
  · rw [hov]
    refine pyRound_le_of_le ?_
    push_cast
    linarith [bt.2, ba.2, bact.2, bwat.2, bwst.2, bfd.2]

/-- Witness for C1 at the concrete profile `sampleUser`. -/
theorem claim_C1_witness :
    (0 ≤ sampleResult.transport_score ∧ sampleResult.transport_score ≤ 100) ∧
    (0 ≤ sampleResult.accommodation_score ∧ sampleResult.accommodation_score ≤ 100) ∧
    (0 ≤ sampleResult.activities_score ∧ sampleResult.activities_score ≤ 100) ∧
    (0 ≤ sampleResult.water_score ∧ sampleResult.water_score ≤ 100) ∧
    (0 ≤ sampleResult.waste_score ∧ sampleResult.waste_score ≤ 100) ∧
    (0 ≤ sampleResult.food_score ∧ sampleResult.food_score ≤ 100) ∧
    (0 ≤ sampleResult.overall_score ∧ sampleResult.overall_score ≤ 100) :=
  claim_C1_clamping_invariant sampleUser sampleResult sampleUser_impact

/-- Claim C3: the overall score is the weighted sum of the six category
scores with weights 0.20, 0.20, 0.15, 0.15, 0.15, 0.15 (which sum to
exactly 1), rounded to the nearest integer (the rounded value is within
1/2 of the weighted sum; ties round to the even integer, as Python's
`round` does). -/
theorem claim_C3_weighted_aggregation (ud : UserData) (r : ImpactResult)
    (h : calculate_impact ud = some r) :
    (0.2 : ℚ) + 0.2 + 0.15 + 0.15 + 0.15 + 0.15 = 1 ∧
    r.overall_score =
      pyRound
        (r.transport_score * 0.2 + r.accommodation_score * 0.2 +
         r.activities_score * 0.15 + r.water_score * 0.15 +
         r.waste_score * 0.15 + r.food_score * 0.15) ∧
    |(r.transport_score * 0.2 + r.accommodation_score * 0.2 +
      r.activities_score * 0.15 + r.water_score * 0.15 +
      r.waste_score * 0.15 + r.food_score * 0.15) - (r.overall_score : ℚ)| ≤ 1 / 2 := by
  obtain ⟨-, -, -, -, -, -, -, -, -, hov, -⟩ := calculate_impact_spec h
  refine ⟨by norm_num, hov, ?_⟩
  have h2 :=
    abs_sub_pyRound_le
      (r.transport_score * 0.2 + r.accommodation_score * 0.2 +
       r.activities_score * 0.15 + r.water_score * 0.15 +
       r.waste_score * 0.15 + r.food_score * 0.15)
  rw [← hov] at h2
  exact h2

/-- Witness for C3 at the concrete profile `sampleUser`. -/
theorem claim_C3_witness :
    (0.2 : ℚ) + 0.2 + 0.15 + 0.15 + 0.15 + 0.15 = 1 ∧
    sampleResult.overall_score =
      pyRound
        (sampleResult.transport_score * 0.2 + sampleResult.accommodation_score * 0.2 +
         sampleResult.activities_score * 0.15 + sampleResult.water_score * 0.15 +
         sampleResult.waste_score * 0.15 + sampleResult.food_score * 0.15) ∧
    |(sampleResult.transport_score * 0.2 + sampleResult.accommodation_score * 0.2 +
      sampleResult.activities_score * 0.15 + sampleResult.water_score * 0.15 +
      sampleResult.waste_score * 0.15 + sampleResult.food_score * 0.15) -
      (sampleResult.overall_score : ℚ)| ≤ 1 / 2 :=
  claim_C3_weighted_aggregation sampleUser sampleResult sampleUser_impact

theorem calculate_impact_overall_nonneg {ud : UserData} {r : ImpactResult}
    (h : calculate_impact ud = some r) : 0 ≤ r.overall_score := by
  obtain ⟨ht, ha, hact, hwat, hwst, hfd, -, -, -, hov, -⟩ := calculate_impact_spec h
  have bt := calculate_transport_impact_bounds ht
  have ba := calculate_accommodation_impact_bounds ha
  have bact := calculate_activities_impact_bounds ud get_oahu_environmental_factors
  have bwat := calculate_water_impact_bounds ud get_oahu_environmental_factors
  have bwst := calculate_waste_impact_bounds ud get_oahu_environmental_factors
  have bfd := calculate_food_impact_bounds ud get_oahu_environmental_factors
  rw [← hact] at bact
  rw [← hwat] at bwat
  rw [← hwst] at bwst
  rw [← hfd] at bfd
  rw [hov]
  exact pyRound_nonneg (by linarith [bt.1, ba.1, bact.1, bwat.1, bwst.1, bfd.1])

/-- Claim C4: every impact-breakdown entry equals (weight x unrounded
category score) / (rounded overall score) when the overall score is
nonzero, and the six breakdown entries are all zero exactly when the
overall score is zero; no division by zero occurs (the zero case is a
defined special case). -/
theorem claim_C4_breakdown_normalization (ud : UserData) (r : ImpactResult)
    (h : calculate_impact ud = some r) :
    (r.overall_score ≠ 0 →
      r.impact_breakdown.transport = 0.2 * r.transport_score / (r.overall_score : ℚ) ∧
      r.impact_breakdown.accommodation = 0.2 * r.accommodation_score / (r.overall_score : ℚ) ∧
      r.impact_breakdown.activities = 0.15 * r.activities_score / (r.overall_score : ℚ) ∧
      r.impact_breakdown.water = 0.15 * r.water_score / (r.overall_score : ℚ) ∧
      r.impact_breakdown.waste = 0.15 * r.waste_score / (r.overall_score : ℚ) ∧
      r.impact_breakdown.food = 0.15 * r.food_score / (r.overall_score : ℚ)) ∧
    (r.overall_score = 0 ↔
      r.impact_breakdown.transport = 0 ∧ r.impact_breakdown.accommodation = 0 ∧
      r.impact_breakdown.activities = 0 ∧ r.impact_breakdown.water = 0 ∧
      r.impact_breakdown.waste = 0 ∧ r.impact_breakdown.food = 0) := by
  obtain ⟨-, -, -, -, -, -, -, -, -, hov, hbd⟩ := calculate_impact_spec h
  have h0 : 0 ≤ r.overall_score := calculate_impact_overall_nonneg h
  constructor
  · intro hne
    have hpos : 0 < r.overall_score := lt_of_le_of_ne h0 (Ne.symm hne)
    rw [hbd]
    simp [hpos]
  · constructor
    · intro hz
      have hnpos : ¬(0 < r.overall_score) := by omega
      rw [hbd]
      simp [hnpos]
    · intro hall
      by_contra hne
      have hpos : 0 < r.overall_score := lt_of_le_of_ne h0 (Ne.symm hne)
      have hcast : ((r.overall_score : ℚ)) ≠ 0 := by
        exact_mod_cast (by omega : r.overall_score ≠ 0)
      rw [hbd] at hall
      simp only [hpos, if_pos] at hall
      have ht0 : r.transport_score = 0 := by
        rcases div_eq_zero_iff.mp hall.1 with h' | h'
        · rcases mul_eq_zero.mp h' with h'' | h''
          · norm_num at h''
          · exact h''
        · exact absurd h' hcast
      have ha0 : r.accommodation_score = 0 := by
        rcases div_eq_zero_iff.mp hall.2.1 with h' | h'
        · rcases mul_eq_zero.mp h' with h'' | h''
          · norm_num at h''
          · exact h''
        · exact absurd h' hcast
      have hact0 : r.activities_score = 0 := by
        rcases div_eq_zero_iff.mp hall.2.2.1 with h' | h'
        · rcases mul_eq_zero.mp h' with h'' | h''
          · norm_num at h''
          · exact h''
        · exact absurd h' hcast
      have hwat0 : r.water_score = 0 := by
        rcases div_eq_zero_iff.mp hall.2.2.2.1 with h' | h'
        · rcases mul_eq_zero.mp h' with h'' | h''
          · norm_num at h''
          · exact h''
        · exact absurd h' hcast
      have hwst0 : r.waste_score = 0 := by
        rcases div_eq_zero_iff.mp hall.2.2.2.2.1 with h' | h'
        · rcases mul_eq_zero.mp h' with h'' | h''
          · norm_num at h''
          · exact h''
        · exact absurd h' hcast
      have hfd0 : r.food_score = 0 := by
        rcases div_eq_zero_iff.mp hall.2.2.2.2.2 with h' | h'
        · rcases mul_eq_zero.mp h' with h'' | h''
          · norm_num at h''
          · exact h''
        · exact absurd h' hcast
      rw [ht0, ha0, hact0, hwat0, hwst0, hfd0] at hov
      norm_num [pyRound_zero] at hov
      omega

/-- Witness for C4 at the concrete profile `sampleUser` (overall score 99). -/
theorem claim_C4_witness :
    sampleResult.impact_breakdown.transport =
      0.2 * sampleResult.transport_score / (sampleResult.overall_score : ℚ) ∧
    sampleResult.impact_breakdown.accommodation =
      0.2 * sampleResult.accommodation_score / (sampleResult.overall_score : ℚ) ∧
    sampleResult.impact_breakdown.activities =
      0.15 * sampleResult.activities_score / (sampleResult.overall_score : ℚ) ∧
    sampleResult.impact_breakdown.water =
      0.15 * sampleResult.water_score / (sampleResult.overall_score : ℚ) ∧
    sampleResult.impact_breakdown.waste =
      0.15 * sampleResult.waste_score / (sampleResult.overall_score : ℚ) ∧
    sampleResult.impact_breakdown.food =
      0.15 * sampleResult.food_score / (sampleResult.overall_score : ℚ) :=
  (claim_C4_breakdown_normalization sampleUser sampleResult sampleUser_impact).1
    (by norm_num [sampleResult])

/-! ## Which inputs make `calculate_impact` fail -/

theorem calculate_transport_impact_isSome_iff (ud : UserData) (f : OahuFactors) :
    (calculate_transport_impact ud f).isSome ↔
      ud.local_transport ∈ transport_multipliers.map Prod.fst := by
  rw [← lookup_isSome_iff_mem]
  unfold calculate_transport_impact
  cases transport_multipliers.lookup ud.local_transport <;> simp

theorem calculate_accommodation_impact_isSome_iff (ud : UserData) (f : OahuFactors) :
    (calculate_accommodation_impact ud f).isSome ↔
      ud.accommodation_type ∈ accommodation_multipliers.map Prod.fst := by
  rw [← lookup_isSome_iff_mem]
  unfold calculate_accommodation_impact
  cases accommodation_multipliers.lookup ud.accommodation_type <;> simp

theorem calculate_water_usage_isSome_iff (ud : UserData) (f : OahuFactors) :
    (calculate_water_usage ud f).isSome ↔
      ud.accommodation_type ∈ accommodation_water.map Prod.fst := by
  rw [← lookup_isSome_iff_mem]
  unfold calculate_water_usage
  cases accommodation_water.lookup ud.accommodation_type <;> simp

theorem transport_carbon_keys_eq :
    transport_carbon.map Prod.fst = transport_multipliers.map Prod.fst := rfl

theorem accommodation_carbon_keys_eq :
    accommodation_carbon.map Prod.fst = accommodation_multipliers.map Prod.fst := rfl

theorem accommodation_water_keys_eq :
    accommodation_water.map Prod.fst = accommodation_multipliers.map Prod.fst := rfl

/-- `calculate_impact` succeeds exactly when the two strict enum labels are
known; no other field is ever validated. -/
theorem calculate_impact_isSome_iff_keys (ud : UserData) :
    (calculate_impact ud).isSome ↔
      ud.local_transport ∈ transport_multipliers.map Prod.fst ∧
      ud.accommodation_type ∈ accommodation_multipliers.map Prod.fst := by
  rw [calculate_impact_isSome_iff, calculate_transport_impact_isSome_iff,
    calculate_accommodation_impact_isSome_iff, calculate_carbon_footprint_isSome_iff,
    calculate_water_usage_isSome_iff, lookup_isSome_iff_mem, lookup_isSome_iff_mem,
    transport_carbon_keys_eq, accommodation_carbon_keys_eq, accommodation_water_keys_eq]
  tauto

/-- Claim C2 counterexample: an input whose `water_conservation` fraction
is 2 (outside [0,1]) and whose `duration` is 0 (below 1) - both violations
the claim says must make `calculate_impact` fail - on which
`calculate_impact` nevertheless returns a result. -/
theorem claim_C2_counterexample :
    (1 : ℚ) < invalidRangeUser.water_conservation ∧
    invalidRangeUser.duration < 1 ∧
    (calculate_impact invalidRangeUser).isSome := by
  refine ⟨by norm_num [invalidRangeUser, sampleUser], by norm_num [invalidRangeUser, sampleUser], ?_⟩
  rw [calculate_impact_isSome_iff_keys]
  constructor
  · simp [invalidRangeUser, sampleUser, transport_multipliers]
  · simp [invalidRangeUser, sampleUser, accommodation_multipliers]

/-- Claim C2 (amended): `calculate_impact` fails (a `KeyError`, modelled as
`none`) exactly when the local transport mode or the accommodation type is
an unknown enum label; it performs no validation of the fraction fields or
of the duration, returning an `ImpactResult` for any such out-of-range
values as long as the two enum labels are known. -/
theorem claim_C2_failure_iff_unknown_enum (ud : UserData) :
    (calculate_impact ud).isSome ↔
      ud.local_transport ∈ transport_multipliers.map Prod.fst ∧
      ud.accommodation_type ∈ accommodation_multipliers.map Prod.fst :=
  calculate_impact_isSome_iff_keys ud

/-- Claim C5: for every valid input the carbon footprint equals
(flight_distance x 0.2/1000 + 20 x per-mode carbon factor x duration +
per-night accommodation carbon factor x duration + 0.01 x dietAdjustment x
duration + (sum of per-activity carbon factors) x duration/3) x 1.2, where
dietAdjustment is the 3-tier step function of plant_based (< 0.3 gives 2.0,
< 0.7 gives 1.5, otherwise 0.8) multiplied by (1.5 - local_food x 0.5). -/
theorem claim_C5_carbon_footprint_formula (ud : UserData) (mode_carbon night_carbon : ℚ)
    (htc : transport_carbon.lookup ud.local_transport = some mode_carbon)
    (hac : accommodation_carbon.lookup ud.accommodation_type = some night_carbon) :
    calculate_carbon_footprint ud get_oahu_environmental_factors =
      some
        ((ud.flight_distance * 0.2 / 1000 +
          20 * mode_carbon * (ud.duration : ℚ) +
          night_carbon * (ud.duration : ℚ) +
          0.01 *
            ((if ud.plant_based < 0.3 then (2.0 : ℚ)
              else if ud.plant_based < 0.7 then 1.5 else 0.8) *
             (1.5 - ud.local_food * 0.5)) * (ud.duration : ℚ) +
          (ud.activities.foldl
            (fun acc activity => acc + (activity_carbon.lookup activity).getD 0.01) 0) *
            ((ud.duration : ℚ) / 3)) * 1.2) := by
  unfold calculate_carbon_footprint
  dsimp only
  rw [htc, hac]
  simp only [Option.bind_eq_bind, Option.some_bind, Option.pure_def, Option.some.injEq]
  simp only [get_oahu_environmental_factors]

/-- Witness for C5 at the concrete profile `sampleUser`. -/
theorem claim_C5_witness :
    calculate_carbon_footprint sampleUser get_oahu_environmental_factors =
      some
        ((sampleUser.flight_distance * 0.2 / 1000 +
          20 * 0.00001 * (sampleUser.duration : ℚ) +
          0.005 * (sampleUser.duration : ℚ) +
          0.01 *
            ((if sampleUser.plant_based < 0.3 then (2.0 : ℚ)
              else if sampleUser.plant_based < 0.7 then 1.5 else 0.8) *
             (1.5 - sampleUser.local_food * 0.5)) * (sampleUser.duration : ℚ) +
          (sampleUser.activities.foldl
            (fun acc activity => acc + (activity_carbon.lookup activity).getD 0.01) 0) *
            ((sampleUser.duration : ℚ) / 3)) * 1.2) :=
  claim_C5_carbon_footprint_formula sampleUser 0.00001 0.005
    (by simp [sampleUser, transport_carbon, List.lookup])
    (by simp [sampleUser, accommodation_carbon, List.lookup])

/-! ## Recommendation lemmas -/

theorem length_ite_singleton (c : Prop) [Decidable c] (x : Recommendation) :
    (if c then [x] else []).length ≤ 1 := by
  split <;> simp

theorem mem_ite_singleton {c : Prop} [Decidable c] {x y : Recommendation} :
    (y ∈ if c then [x] else []) ↔ c ∧ y = x := by
  split_ifs with h <;> simp [h]

theorem recommendation_rules_length_le (ud : UserData) :
    (recommendation_rules ud).length ≤ 13 := by
  have h13 :
      (recommendation_rules ud).length ≤
        1 + 1 + 1 + 1 + 1 + 1 + 1 + 1 + 1 + 1 + 1 + 1 + 1 := by
    unfold recommendation_rules
    simp only [List.length_append]
    gcongr <;> exact length_ite_singleton _ _
  omega

theorem recommendation_rules_no_activity_rules {ud : UserData} (hemp : ud.activities = [])
    {rec : Recommendation} (hrec : rec ∈ recommendation_rules ud) :
    rec.title ≠ "Choose low-impact activities" ∧
    rec.title ≠ "Use reef-safe sunscreen" ∧
    rec.title ≠ "Maintain distance from wildlife" := by
  unfold recommendation_rules at hrec
  rw [hemp] at hrec
  simp only [List.mem_append, mem_ite_singleton, List.not_mem_nil, or_self, false_and,
    and_false, or_false, false_or] at hrec
  rcases hrec with
    (((((((((⟨-, rfl⟩ | ⟨-, rfl⟩) | ⟨-, rfl⟩) | ⟨-, rfl⟩) | ⟨-, rfl⟩) | ⟨-, rfl⟩) |
      ⟨-, rfl⟩) | ⟨-, rfl⟩) | ⟨-, rfl⟩) | ⟨-, rfl⟩) <;>
    refine ⟨by decide, by decide, by decide⟩

/-- Claim C6: the recommendation deriver is total and always returns at
least 2 and at most (13 rules + 2) items; when fewer than 3 rule-triggered
advisories were produced, exactly the two fixed general advisories are
appended together, and otherwise nothing is appended; an empty activities
set skips the three activity-conditioned rules. -/
theorem claim_C6_recommendation_bounds (ud : UserData) (results : ImpactResult) :
    2 ≤ (get_recommendations ud results).length ∧
    (get_recommendations ud results).length ≤ 13 + 2 ∧
    ((recommendation_rules ud).length < 3 →
      get_recommendations ud results =
        recommendation_rules ud ++ [general_recommendation_1, general_recommendation_2]) ∧
    (3 ≤ (recommendation_rules ud).length →
      get_recommendations ud results = recommendation_rules ud) ∧
    (ud.activities = [] →
      ∀ rec ∈ get_recommendations ud results,
        rec.title ≠ "Choose low-impact activities" ∧
        rec.title ≠ "Use reef-safe sunscreen" ∧
        rec.title ≠ "Maintain distance from wildlife") := by
  have hle := recommendation_rules_length_le ud
  unfold get_recommendations
  dsimp only
  by_cases hc : (recommendation_rules ud).length < 3
  · rw [if_pos hc]
    refine ⟨by simp, by simp; omega, fun _ => rfl, fun h => absurd h (by omega), ?_⟩
    intro hemp rec hrec
    rcases List.mem_append.mp hrec with hmem | hmem
    · exact recommendation_rules_no_activity_rules hemp hmem
    · rcases List.mem_cons.mp hmem with rfl | hmem
      · decide
      · rcases List.mem_cons.mp hmem with rfl | hmem
        · decide
        · simp at hmem
  · rw [if_neg hc]
    refine ⟨by omega, by omega, fun h => absurd h hc, fun _ => rfl, ?_⟩
    intro hemp rec hrec
    exact recommendation_rules_no_activity_rules hemp hrec

/-- Witness for C6 at the concrete profile `sampleUser` (no rule fires, so
the two general advisories are the whole output). -/
theorem claim_C6_witness :
    2 ≤ (get_recommendations sampleUser sampleResult).length ∧
    get_recommendations sampleUser sampleResult =
      recommendation_rules sampleUser ++
        [general_recommendation_1, general_recommendation_2] :=
  ⟨(claim_C6_recommendation_bounds sampleUser sampleResult).1,
   (claim_C6_recommendation_bounds sampleUser sampleResult).2.2.1
     (by simp [recommendation_rules, sampleUser]; norm_num)⟩

/-! ## Normal forms for the water and accommodation scorers -/

theorem calculate_water_impact_eq (ud : UserData) (f : OahuFactors) :
    calculate_water_impact ud f =
      max 0 (min 100
        (100 - ud.shower_length * 2.5 - 20 * (1 - ud.water_conservation) +
         (if ud.linen_reuse then (15 : ℚ) else -10) - ud.pool_usage * 3 -
         10 * f.water.freshwater_scarcity - 5 * (f.water.tourism_water_factor - 1))) := by
  unfold calculate_water_impact
  cases hl : ud.linen_reuse <;> simp [hl] <;> ring_nf

theorem calculate_accommodation_impact_eq (ud : UserData) (f : OahuFactors) :
    calculate_accommodation_impact ud f =
      (accommodation_multipliers.lookup ud.accommodation_type).map fun mult =>
        max 0 (min 100
          (100 - 30 * mult - ud.ac_usage * 2 - 15 * (1 - ud.water_conservation) +
           (if ud.linen_reuse then (10 : ℚ) else 0) -
           5 * (f.energy.tourism_energy_factor - 1) +
           5 * f.accommodation.green_certified_percentage)) := by
  unfold calculate_accommodation_impact
  cases hl : ud.linen_reuse <;>
    cases hm : accommodation_multipliers.lookup ud.accommodation_type <;>
      simp [hl, hm]

/-- Claim C7: holding everything else fixed, a larger shower length never
yields a larger water score, and linen reuse yields water and accommodation
scores at least as large as without it - strictly larger away from the
clamp boundaries (the reused-linen score positive and the non-reused score
below 100). -/
theorem claim_C7_monotonicity (ud : UserData) :
    (∀ s1 s2 : ℚ, s1 ≤ s2 →
      calculate_water_impact { ud with shower_length := s2 } get_oahu_environmental_factors ≤
        calculate_water_impact { ud with shower_length := s1 } get_oahu_environmental_factors) ∧
    (calculate_water_impact { ud with linen_reuse := false } get_oahu_environmental_factors ≤
      calculate_water_impact { ud with linen_reuse := true } get_oahu_environmental_factors) ∧
    (0 < calculate_water_impact { ud with linen_reuse := true } get_oahu_environmental_factors →
      calculate_water_impact { ud with linen_reuse := false } get_oahu_environmental_factors < 100 →
      calculate_water_impact { ud with linen_reuse := false } get_oahu_environmental_factors <
        calculate_water_impact { ud with linen_reuse := true } get_oahu_environmental_factors) ∧
    (∀ a b : ℚ,
      calculate_accommodation_impact { ud with linen_reuse := true }
        get_oahu_environmental_factors = some a →
      calculate_accommodation_impact { ud with linen_reuse := false }
        get_oahu_environmental_factors = some b →
      b ≤ a ∧ (0 < a → b < 100 → b < a)) := by
  refine ⟨?_, ?_, ?_, ?_⟩
  · intro s1 s2 h12
    rw [calculate_water_impact_eq, calculate_water_impact_eq]
    dsimp only
    exact clamp_mono (by linarith)
  · rw [calculate_water_impact_eq, calculate_water_impact_eq]
    dsimp only
    simp only [Bool.false_eq_true, reduceIte]
    exact clamp_mono (by linarith)
  · rw [calculate_water_impact_eq, calculate_water_impact_eq]
    dsimp only
    simp only [Bool.false_eq_true, reduceIte]
    intro h1 h2
    exact clamp_lt_clamp (by linarith) h1 h2
  · intro a b hta htb
    rw [calculate_accommodation_impact_eq] at hta htb
    dsimp only at hta htb
    cases hm : accommodation_multipliers.lookup ud.accommodation_type with
    | none => rw [hm] at hta; simp at hta
    | some m =>
      rw [hm] at hta htb
      simp only [Option.map_some', Option.some.injEq, Bool.false_eq_true, reduceIte] at hta htb
      rw [← hta, ← htb]
      constructor
      · exact clamp_mono (by linarith)
      · intro h1 h2
        exact clamp_lt_clamp (by linarith) h1 h2

/-- Witness for C7: shower length 1 vs 2, and linen reuse on/off, at the
concrete profile `sampleUser` (accommodation scores 399/4 vs 359/4). -/
theorem claim_C7_witness :
    calculate_water_impact { sampleUser with shower_length := 2 } get_oahu_environmental_factors ≤
      calculate_water_impact { sampleUser with shower_length := 1 } get_oahu_environmental_factors ∧
    calculate_water_impact { sampleUser with linen_reuse := false } get_oahu_environmental_factors <
      calculate_water_impact { sampleUser with linen_reuse := true } get_oahu_environmental_factors ∧
    ((359 : ℚ) / 4) < 399 / 4 :=
  ⟨(claim_C7_monotonicity sampleUser).1 1 2 (by norm_num),
   (claim_C7_monotonicity sampleUser).2.2.1
     (by
       rw [calculate_water_impact_eq]
       norm_num [sampleUser, get_oahu_environmental_factors])
     (by
       rw [calculate_water_impact_eq]
       norm_num [sampleUser, get_oahu_environmental_factors]),
   ((claim_C7_monotonicity sampleUser).2.2.2 (399 / 4) (359 / 4)
     (by
       rw [calculate_accommodation_impact_eq]
       simp [sampleUser, accommodation_multipliers, List.lookup, get_oahu_environmental_factors]
       norm_num)
     (by
       rw [calculate_accommodation_impact_eq]
       simp [sampleUser, accommodation_multipliers, List.lookup, get_oahu_environmental_factors]
       norm_num)).2 (by norm_num) (by norm_num)⟩

/-- Claim C8: for in-range inputs (fractions in [0,1], non-negative
numerics), the water-usage and waste-generation estimators never return a
negative value. -/
theorem claim_C8_estimators_nonneg (ud : UserData)
    (h1 : 0 ≤ ud.water_conservation) (h2 : ud.water_conservation ≤ 1)
    (h3 : 0 ≤ ud.shower_length) (h4 : 0 ≤ ud.pool_usage)
    (h5 : 0 ≤ ud.refuse_single_use) (h6 : ud.refuse_single_use ≤ 1)
    (h7 : 0 ≤ ud.food_waste) (h8 : ud.food_waste ≤ 1) :
    (∀ w : ℤ, calculate_water_usage ud get_oahu_environmental_factors = some w → 0 ≤ w) ∧
    0 ≤ calculate_waste_generation ud get_oahu_environmental_factors := by
  constructor
  · intro w hw
    unfold calculate_water_usage at hw
    rcases Option.map_eq_some'.mp hw with ⟨base_water, hbw, hval⟩
    dsimp only at hval
    have hb : (0 : ℚ) ≤ base_water := by
      have hmem := lookup_mem_values hbw
      simp only [accommodation_water, List.map_cons, List.map_nil, List.mem_cons,
        List.not_mem_nil, or_false] at hmem
      rcases hmem with rfl | rfl | rfl | rfl | rfl | rfl <;> norm_num
    rw [← hval]
    apply pyRound_nonneg
    have hlin : (0 : ℚ) ≤ (if ud.linen_reuse then (0.9 : ℚ) else 1.0) := by
      split <;> norm_num
    have hcons : (0 : ℚ) ≤ 1 - ud.water_conservation * 0.3 := by linarith
    have hsum : (0 : ℚ) ≤ base_water + ud.shower_length * 2.5 * 10 + ud.pool_usage * 15 := by
      linarith
    exact mul_nonneg (mul_nonneg (mul_nonneg hsum hcons) hlin)
      (by norm_num [get_oahu_environmental_factors])
  · unfold calculate_waste_generation
    dsimp only
    apply pyRound1_nonneg
    have hbottle : (0 : ℚ) ≤ (if ud.reusable_bottle then (0.8 : ℚ) else 1.2) := by
      split <;> norm_num
    have hbag : (0 : ℚ) ≤ (if ud.reusable_bag then (0.9 : ℚ) else 1.1) := by
      split <;> norm_num
    have hclean : (0 : ℚ) ≤ (if ud.cleanup_participation then (0.9 : ℚ) else 1.0) := by
      split <;> norm_num
    have hsingle : (0 : ℚ) ≤ 1 - ud.refuse_single_use * 0.4 := by linarith
    have hfw : (0 : ℚ) ≤ 1 - ud.food_waste * 0.3 := by linarith
    exact mul_nonneg
      (mul_nonneg
        (mul_nonneg (mul_nonneg (mul_nonneg (mul_nonneg (by norm_num) hbottle) hbag) hsingle)
          hclean) hfw)
      (by norm_num [get_oahu_environmental_factors])

/-- Witness for C8 at the concrete profile `sampleUser` (water usage 38). -/
theorem claim_C8_witness :
    (0 : ℤ) ≤ 38 ∧
    0 ≤ calculate_waste_generation sampleUser get_oahu_environmental_factors :=
  ⟨(claim_C8_estimators_nonneg sampleUser (by norm_num [sampleUser]) (by norm_num [sampleUser])
      (by norm_num [sampleUser]) (by norm_num [sampleUser]) (by norm_num [sampleUser])
      (by norm_num [sampleUser]) (by norm_num [sampleUser]) (by norm_num [sampleUser])).1
    38 sampleUser_water_usage,
   (claim_C8_estimators_nonneg sampleUser (by norm_num [sampleUser]) (by norm_num [sampleUser])
      (by norm_num [sampleUser]) (by norm_num [sampleUser]) (by norm_num [sampleUser])
      (by norm_num [sampleUser]) (by norm_num [sampleUser]) (by norm_num [sampleUser])).2⟩

/-! ## Lenient versus strict lookups -/

theorem foldl_getD_of_all_unknown (l : List String) (tbl : List (String × ℚ)) (d : ℚ)
    (h : ∀ a ∈ l, a ∉ tbl.map Prod.fst) :
    ∀ c : ℚ, l.foldl (fun acc activity => acc + (tbl.lookup activity).getD d) c =
      c + d * l.length := by
  induction l with
  | nil => intro c; simp
  | cons x xs ih =>
    intro c
    simp only [List.foldl_cons]
    rw [lookup_eq_none_of_not_mem (h x (by simp))]
    rw [ih (fun a ha => h a (by simp [ha])) _]
    simp only [Option.getD_none, List.length_cons]
    push_cast
    ring

/-- A user profile whose local transport label is not in any table. -/
def unknownModeUser : UserData :=
  { sampleUser with local_transport := "Helicopter tours" }

/-- A user profile whose accommodation label is not in any table. -/
def unknownAccommodationUser : UserData :=
  { sampleUser with accommodation_type := "Overwater bungalow" }

/-- Claim C9: activity labels absent from the activity tables are handled
leniently (the activities scorer charges the default impact 10 per unknown
activity, the carbon estimator the default 0.01, and both proceed), while
an unknown local transport mode or accommodation type hits a strict lookup
and makes the scorer - and the whole `calculate_impact` call - fail. -/
theorem claim_C9_lenient_vs_strict_lookup :
    (∀ s : String, s ∉ (activity_impacts get_oahu_environmental_factors).map Prod.fst →
      ((activity_impacts get_oahu_environmental_factors).lookup s).getD 10 = 10) ∧
    (∀ s : String, s ∉ activity_carbon.map Prod.fst →
      (activity_carbon.lookup s).getD 0.01 = 0.01) ∧
    (∀ ud : UserData,
      (∀ a ∈ ud.activities, a ∉ (activity_impacts get_oahu_environmental_factors).map Prod.fst) →
      ud.activities.foldl
        (fun acc activity =>
          acc + ((activity_impacts get_oahu_environmental_factors).lookup activity).getD 10) 0 =
        10 * ud.activities.length) ∧
    (∀ ud : UserData,
      ud.local_transport ∈ transport_carbon.map Prod.fst →
      ud.accommodation_type ∈ accommodation_carbon.map Prod.fst →
      (calculate_carbon_footprint ud get_oahu_environmental_factors).isSome) ∧
    (∀ ud : UserData, ud.local_transport ∉ transport_multipliers.map Prod.fst →
      calculate_transport_impact ud get_oahu_environmental_factors = none ∧
      calculate_impact ud = none) ∧
    (∀ ud : UserData, ud.accommodation_type ∉ accommodation_multipliers.map Prod.fst →
      calculate_accommodation_impact ud get_oahu_environmental_factors = none ∧
      calculate_impact ud = none) := by
  refine ⟨?_, ?_, ?_, ?_, ?_, ?_⟩
  · intro s hs
    rw [lookup_eq_none_of_not_mem hs]
    rfl
  · intro s hs
    rw [lookup_eq_none_of_not_mem hs]
    rfl
  · intro ud h
    rw [foldl_getD_of_all_unknown ud.activities _ 10 h 0]
    ring
  · intro ud h1 h2
    rw [calculate_carbon_footprint_isSome_iff]
    exact ⟨(lookup_isSome_iff_mem _ _).mpr h1, (lookup_isSome_iff_mem _ _).mpr h2⟩
  · intro ud h
    constructor
    · unfold calculate_transport_impact
      rw [lookup_eq_none_of_not_mem h]
      rfl
    · refine Option.not_isSome_iff_eq_none.mp ?_
      rw [calculate_impact_isSome_iff_keys]
      tauto
  · intro ud h
    constructor
    · unfold calculate_accommodation_impact
      rw [lookup_eq_none_of_not_mem h]
      rfl
    · refine Option.not_isSome_iff_eq_none.mp ?_
      rw [calculate_impact_isSome_iff_keys]
      tauto

/-- Witness for C9: the unknown activity label "Parasailing" defaults to 10
and 0.01; the unknown transport label "Helicopter tours" and accommodation
label "Overwater bungalow" make the scorers and `calculate_impact` fail. -/
theorem claim_C9_witness :
    ((activity_impacts get_oahu_environmental_factors).lookup "Parasailing").getD 10 = 10 ∧
    (activity_carbon.lookup "Parasailing").getD 0.01 = 0.01 ∧
    (calculate_transport_impact unknownModeUser get_oahu_environmental_factors = none ∧
      calculate_impact unknownModeUser = none) ∧
    (calculate_accommodation_impact unknownAccommodationUser get_oahu_environmental_factors = none ∧
      calculate_impact unknownAccommodationUser = none) :=
  ⟨claim_C9_lenient_vs_strict_lookup.1 "Parasailing"
     (by simp [activity_impacts]),
   claim_C9_lenient_vs_strict_lookup.2.1 "Parasailing"
     (by simp [activity_carbon]),
   claim_C9_lenient_vs_strict_lookup.2.2.2.2.1 unknownModeUser
     (by simp [unknownModeUser, sampleUser, transport_multipliers]),
   claim_C9_lenient_vs_strict_lookup.2.2.2.2.2 unknownAccommodationUser
     (by simp [unknownAccommodationUser, sampleUser, accommodation_multipliers])⟩

/-- Claim C10: the daily water usage depends only on the accommodation
type, shower length, pool usage, water conservation effort and linen
reuse: two inputs agreeing on these five fields get identical water usage,
whatever their other fields. -/
theorem claim_C10_water_usage_noninterference (ud1 ud2 : UserData)
    (h1 : ud1.accommodation_type = ud2.accommodation_type)
    (h2 : ud1.shower_length = ud2.shower_length)
    (h3 : ud1.pool_usage = ud2.pool_usage)
    (h4 : ud1.water_conservation = ud2.water_conservation)
    (h5 : ud1.linen_reuse = ud2.linen_reuse) :
    calculate_water_usage ud1 get_oahu_environmental_factors =
      calculate_water_usage ud2 get_oahu_environmental_factors := by
  unfold calculate_water_usage
  rw [h1, h2, h3, h4, h5]

/-- A profile agreeing with `sampleUser` on the five water-relevant fields
but different everywhere else. -/
def alteredSampleUser : UserData :=
  { sampleUser with
      duration := 30
      flight_distance := 9999
      local_transport := "Rental SUV/large vehicle"
      activities := ["Beach relaxation", "ATV/off-road vehicle tours"]
      plant_based := 0
      local_food := 0
      eco_tours := false
      reusable_bottle := false
      seafood_sustainable := false }

/-- Witness for C10: `sampleUser` and `alteredSampleUser` share the five
water-relevant fields and get the same water usage. -/
theorem claim_C10_witness :
    calculate_water_usage sampleUser get_oahu_environmental_factors =
      calculate_water_usage alteredSampleUser get_oahu_environmental_factors :=
  claim_C10_water_usage_noninterference sampleUser alteredSampleUser rfl rfl rfl rfl rfl
